import Mathlib

/-!
Verification of the FIFA World Cup dashboard (`fifa.py`).

The program loads three CSV tables (WorldCups, WorldCupMatches, WorldCupPlayers)
and computes descriptive aggregates with pandas.  This file gives a shallow
embedding of the data model and of each aggregation appearing in the source,
and proves the spec's claims about them.

Modelling conventions:
* a pandas DataFrame is a `List` of row structures, in file order;
* a nullable column is an `Option` field (pandas NaN = `none`);
* goal counts and attendance are integer-valued in the data, so they are
  modelled as `Nat` (the `float64` representation pandas uses after `dropna`
  does not affect any of the integer arithmetic proved here);
* `Series.value_counts` is modelled as: distinct keys in first-encounter
  order, each paired with its occurrence count, stably sorted by count in
  descending order (`valueCounts`);
* `DataFrame.nlargest(n, col)` with the default `keep = first` is modelled
  as a stable descending sort by the column followed by `take n`, which is
  the documented pandas behaviour (ties keep original row order);
* `dropna`, `tail(5)[[cols]]`, and `.copy()` all return fresh frames in
  pandas; the heap model for the frame claim makes those allocations
  explicit.
-/

namespace Fifa

/-- A row of WorldCups.csv (the Tournament table).  `Winner` and
`Runners-Up` can in principle be missing, so they are `Option`;
`Attendance` is the raw string with `.` as thousands separator. -/
structure TournamentRow where
  year : Nat
  country : String
  winner : Option String
  runnersUp : Option String
  goalsScored : Nat
  matchesPlayed : Nat
  qualifiedTeams : Nat
  attendance : String
deriving DecidableEq

/-- A row of WorldCupMatches.csv (the Match table).  The goal columns are
nullable (`dropna` in the source filters on them). -/
structure MatchRow where
  year : Nat
  stage : String
  homeTeamName : String
  awayTeamName : String
  homeGoals : Option Nat
  awayGoals : Option Nat
deriving DecidableEq

/-- A row of WorldCupPlayers.csv (the PlayerAppearance table). -/
structure PlayerRow where
  playerName : Option String
  position : Option String
  teamInitials : String
  coachName : Option String
deriving DecidableEq

/-- The projection `world_cups.tail(5)[['Year','Country','Winner',
'Runners-Up','GoalsScored','Attendance']]` used in `show_overview`. -/
structure RecentRow where
  year : Nat
  country : String
  winner : Option String
  runnersUp : Option String
  goalsScored : Nat
  attendance : String
deriving DecidableEq

/-- A row of the `highest_scoring` projection in `show_match_stats`:
columns Year, Home Team Name, Home Team Goals, Away Team Name,
Away Team Goals, Total Goals. -/
structure ScoringRow where
  year : Nat
  homeTeamName : String
  homeGoals : Nat
  awayTeamName : String
  awayGoals : Nat
  totalGoals : Nat
deriving DecidableEq

/-! ### Attendance normalization (source lines 119 and 154)

`df['Attendance'].str.replace('.', '').astype(float)`: strip the `.`
thousands separator, then parse as a number. -/

/-- Strip every `.` character (the thousands separator) from a string. -/
def stripThousands (s : String) : String :=
  String.mk (s.data.filter (fun c => c ≠ '.'))

/-- The numeric value of a decimal digit character, `none` otherwise. -/
def digitVal (c : Char) : Option Nat :=
  if '0' ≤ c ∧ c ≤ '9' then some (c.toNat - '0'.toNat) else none

/-- Parse a non-empty all-digit character list as a natural number
(`none` on the empty list or on any non-digit character): the integer
reading `astype(float)` performs on these integer-valued cells. -/
def parseNat (l : List Char) : Option Nat :=
  if l.isEmpty then none
  else l.foldl (fun acc c => acc.bind (fun n => (digitVal c).map (fun d => n * 10 + d)))
    (some 0)

/-- Normalize an Attendance cell: strip separators, parse as a number.
`none` models the `astype(float)` failure on a non-numeric string. -/
def normalizeAttendance (s : String) : Option Nat :=
  parseNat (stripThousands s).data

/-! ### Generic list machinery shared by the aggregators -/

/-- Distinct elements of a list of strings, keeping the first occurrence
of each, in first-encounter order. -/
def uniqueKeys : List String → List String
  | [] => []
  | x :: xs => x :: (uniqueKeys xs).filter (fun y => y ≠ x)

/-- Insert `p` into a list that is sorted descending under `key`, placing
`p` before every element of strictly smaller key and after every element
of greater-or-equal key (so an element inserted earlier in a fold stays
before later equal-key elements: stability). -/
def insertDescBy {α : Type} (key : α → Nat) (p : α) : List α → List α
  | [] => [p]
  | q :: qs => if key q ≤ key p then p :: q :: qs else q :: insertDescBy key p qs

/-- Stable insertion sort, descending under `key`. -/
def sortDescBy {α : Type} (key : α → Nat) : List α → List α
  | [] => []
  | x :: xs => insertDescBy key x (sortDescBy key xs)

/-- `Series.value_counts()`: occurrence count of every distinct value,
sorted by count in descending order. -/
def valueCounts (l : List String) : List (String × Nat) :=
  sortDescBy (fun p => p.2) ((uniqueKeys l).map (fun k => (k, l.count k)))

/-! ### Loader and navigation (source lines 37-74) -/

/-- The environment `load_data` runs in: the parse result of each of the
three CSV files.  `Except.error` models a missing, unreadable or
unparseable file (any exception of `pd.read_csv`). -/
structure LoadEnv where
  worldCupsFile : Except String (List TournamentRow)
  matchesFile : Except String (List MatchRow)
  playersFile : Except String (List PlayerRow)

/-- `load_data` (source lines 37-47): read the three files inside one
`try`; if any read raises, report the error and return
`(None, None, None)`. -/
def load_data (env : LoadEnv) :
    Option (List TournamentRow) × Option (List MatchRow) × Option (List PlayerRow) :=
  match env.worldCupsFile with
  | Except.error _ => (none, none, none)
  | Except.ok wc =>
    match env.matchesFile with
    | Except.error _ => (none, none, none)
    | Except.ok ms =>
      match env.playersFile with
      | Except.error _ => (none, none, none)
      | Except.ok ps => (some wc, some ms, some ps)

/-- The five radio-button pages of the sidebar (source lines 61-63). -/
inductive Page where
  | overview
  | winners
  | goalsAttendance
  | matchStats
  | playerAnalysis
deriving DecidableEq

/-- The aggregators each view handler invokes (spec section 4.2 names,
mapped from the calls in `show_overview`, `show_winners`,
`show_goals_attendance`, `show_match_stats`, `show_player_analysis`). -/
def aggregatorsInvoked : Page → List String
  | Page.overview =>
      ["TournamentCount", "TotalGoals", "TotalMatches", "TotalTeams", "RecentTournaments"]
  | Page.winners => ["WinCountsByCountry", "HostCountryWins"]
  | Page.goalsAttendance =>
      ["GoalsPerTournamentSeries", "AttendancePerTournamentSeries",
       "GoalsVsAttendanceCorrelationSet"]
  | Page.matchStats =>
      ["HighestScoringMatches", "TotalGoalsHistogramInput", "HomeAwayGoalTotals",
       "MatchesByStage"]
  | Page.playerAnalysis => ["PositionCounts", "PlayersByTeam", "TopCoaches"]

/-- `main` (source lines 49-74): load the data; if any table is `None`,
show the error message and return without calling any view handler;
otherwise dispatch to the selected page's handler (modelled by the list
of aggregators it invokes). -/
def main (env : LoadEnv) (page : Page) : Except String (List String) :=
  match load_data env with
  | (some _, some _, some _) => Except.ok (aggregatorsInvoked page)
  | _ => Except.error "Failed to load data. Please check if CSV files are present."

/-! ### Tournament aggregators (source lines 76-147) -/

/-- `len(world_cups)` (source line 87): the TournamentCount aggregate. -/
def tournamentCount (world_cups : List TournamentRow) : Nat :=
  world_cups.length

/-- `world_cups['Winner'].value_counts()` (source line 126): win counts
per country, descending.  `value_counts` skips missing values. -/
def winner_counts (world_cups : List TournamentRow) : List (String × Nat) :=
  valueCounts (world_cups.filterMap (fun r => r.winner))

/-! ### Match aggregators (source lines 183-224) -/

/-- `matches.dropna(subset=['Home Team Goals', 'Away Team Goals'])`
(source line 187): keep only rows where both goal counts are present. -/
def matches_clean (ms : List MatchRow) : List MatchRow :=
  ms.filter (fun r => r.homeGoals.isSome && r.awayGoals.isSome)

/-- The derived `Total Goals` column entry (source line 190):
`Home Team Goals + Away Team Goals`.  Only evaluated on rows of
`matches_clean`, where both options are `some`. -/
def total_goals (r : MatchRow) : Nat :=
  r.homeGoals.getD 0 + r.awayGoals.getD 0

/-- `matches_clean.nlargest(10, 'Total Goals')` followed by the column
projection (source lines 191-192).  `nlargest` with its default
`keep = first` is a stable descending sort by the column, truncated to 10;
each row keeps its index (`Nat`, position in `matches_clean`). -/
def highest_scoring (ms : List MatchRow) : List (Nat × ScoringRow) :=
  ((sortDescBy (fun p => total_goals p.2) (matches_clean ms).enum).take 10).map
    (fun p => (p.1,
      { year := p.2.year
        homeTeamName := p.2.homeTeamName
        homeGoals := p.2.homeGoals.getD 0
        awayTeamName := p.2.awayTeamName
        awayGoals := p.2.awayGoals.getD 0
        totalGoals := total_goals p.2 }))

/-- `matches_clean['Home Team Goals'].sum()` (source line 208). -/
def home_goals (ms : List MatchRow) : Nat :=
  ((matches_clean ms).map (fun r => r.homeGoals.getD 0)).sum

/-- `matches_clean['Away Team Goals'].sum()` (source line 209). -/
def away_goals (ms : List MatchRow) : Nat :=
  ((matches_clean ms).map (fun r => r.awayGoals.getD 0)).sum

/-- The `Total Goals` column of `matches_clean`, i.e. the values handed to
the histogram (source lines 190 and 201): the TotalGoalsHistogramInput
aggregate. -/
def totalGoalsHistogramInput (ms : List MatchRow) : List Nat :=
  (matches_clean ms).map total_goals

/-- `matches_clean['Stage'].value_counts().head(10)` (source line 219):
the MatchesByStage aggregate as the code computes it — note it counts
stages of `matches_clean`, not of the full Match table. -/
def stage_counts (ms : List MatchRow) : List (String × Nat) :=
  (valueCounts ((matches_clean ms).map (fun r => r.stage))).take 10

/-- Modelled from the spec: "MatchesByStage: group Match by Stage, count
occurrences, descending order, top-10 truncation" — grouping the ENTIRE
Match table, with no restriction on the goal columns.  Kept separate from
`stage_counts` (the code's version) to compare the two. -/
def stage_counts_spec (ms : List MatchRow) : List (String × Nat) :=
  (valueCounts (ms.map (fun r => r.stage))).take 10

/-! ### Player aggregators (source lines 226-250) -/

/-- `players.dropna(subset=['Player Name'])` (source line 230). -/
def players_clean (players : List PlayerRow) : List PlayerRow :=
  players.filter (fun r => r.playerName.isSome)

/-- `players_clean.groupby('Team Initials')['Player Name'].nunique()
.sort_values(ascending=False).head(20)` (source line 240): distinct
player-name count per team, descending, top 20.  Groups appear in
first-encounter order before the (stable) descending sort; pandas does
not fix the relative order of groups with equal counts (`sort_values`
uses an unstable quicksort), and no proved property depends on it. -/
def team_players (players : List PlayerRow) : List (String × Nat) :=
  (sortDescBy (fun p => p.2)
    ((uniqueKeys ((players_clean players).map (fun r => r.teamInitials))).map
      (fun t => (t, (uniqueKeys
        (((players_clean players).filter (fun r => r.teamInitials = t)).filterMap
          (fun r => r.playerName))).length)))).take 20

/-- `players_clean['Coach Name'].value_counts().head(10)` (source
line 249): the TopCoaches aggregate, computed from `players_clean`
(the table already filtered on `Player Name`). -/
def coach_counts (players : List PlayerRow) : List (String × Nat) :=
  (valueCounts ((players_clean players).filterMap (fun r => r.coachName))).take 10

/-! ### Heap model for the frame claim

Dataframes live in a heap of cells; a cell index is a reference.  pandas
`dropna`, `tail(5)[[cols]]` and `.copy()` allocate a fresh frame (a new
cell), and a column assignment `df[col] = ...` writes in place to the
cell `df` refers to.  Each view handler below is the source function with
the frame operations made explicit; the frame claim is that cells
existing before a handler runs are untouched by it. -/

/-- A heap cell: one dataframe.  A derived or replaced column is modelled
by pairing each row with the new column's value. -/
inductive TableVal where
  | tTable (rows : List TournamentRow)
  | tTableNum (rows : List (TournamentRow × Option Nat))
  | mTable (rows : List MatchRow)
  | mTableTG (rows : List (MatchRow × Nat))
  | rTable (rows : List RecentRow)
  | rTableNum (rows : List (RecentRow × Option Nat))

/-- The dataframe heap: cell `i` is `h[i]?`; allocation appends. -/
abbrev Heap := List TableVal

/-- The column projection of `world_cups.tail(5)[[...]]` (source
line 118). -/
def recent_cups_proj (r : TournamentRow) : RecentRow :=
  { year := r.year
    country := r.country
    winner := r.winner
    runnersUp := r.runnersUp
    goalsScored := r.goalsScored
    attendance := r.attendance }

/-- `show_overview`, frame part (source lines 118-119):
`recent_cups = world_cups.tail(5)[[...]]` allocates a fresh frame (both
`tail` slicing into a column-list selection and the selection itself
copy); `recent_cups['Attendance'] = ...str.replace...astype(float)`
writes the normalized column into that fresh cell. -/
def show_overview_heap (h : Heap) (wcRef : Nat) : Heap :=
  match h[wcRef]? with
  | some (TableVal.tTable wc) =>
    (h ++ [TableVal.rTable ((wc.drop (wc.length - 5)).map recent_cups_proj)]).set h.length
      (TableVal.rTableNum (((wc.drop (wc.length - 5)).map recent_cups_proj).map
        (fun r => (r, normalizeAttendance r.attendance))))
  | _ => h

/-- `show_goals_attendance`, frame part (source lines 153-154):
`world_cups_clean = world_cups.copy()` allocates a fresh cell;
`world_cups_clean['Attendance'] = ...` writes the normalized column
into it. -/
def show_goals_attendance_heap (h : Heap) (wcRef : Nat) : Heap :=
  match h[wcRef]? with
  | some (TableVal.tTable wc) =>
    (h ++ [TableVal.tTable wc]).set h.length
      (TableVal.tTableNum (wc.map (fun r => (r, normalizeAttendance r.attendance))))
  | _ => h

/-- `show_match_stats`, frame part (source lines 187-190):
`matches_clean = matches.dropna(...)` allocates a fresh cell (`dropna`
returns a new frame); `matches_clean['Total Goals'] = ...` writes the
derived column into that fresh cell. -/
def show_match_stats_heap (h : Heap) (mRef : Nat) : Heap :=
  match h[mRef]? with
  | some (TableVal.mTable ms) =>
    (h ++ [TableVal.mTable (matches_clean ms)]).set h.length
      (TableVal.mTableTG ((matches_clean ms).map (fun r => (r, total_goals r))))
  | _ => h

/-! ## Lemmas about the shared machinery -/

theorem mem_uniqueKeys {y : String} : ∀ {l : List String}, y ∈ uniqueKeys l ↔ y ∈ l
  | [] => Iff.rfl
  | x :: xs => by
    have ih := @mem_uniqueKeys y xs
    simp only [uniqueKeys, List.mem_cons, List.mem_filter, decide_eq_true_eq, ih]
    by_cases hyx : y = x
    · simp [hyx]
    · simp [hyx]

theorem nodup_uniqueKeys : ∀ (l : List String), (uniqueKeys l).Nodup
  | [] => List.nodup_nil
  | x :: xs => by
    refine List.nodup_cons.mpr ⟨?_, (nodup_uniqueKeys xs).filter _⟩
    intro hx
    rcases List.mem_filter.mp hx with ⟨-, hne⟩
    exact (decide_eq_true_eq.mp hne) rfl

theorem length_uniqueKeys_le : ∀ (l : List String), (uniqueKeys l).length ≤ l.length
  | [] => Nat.le_refl 0
  | x :: xs => by
    simpa [uniqueKeys] using
      Nat.le_trans (List.length_filter_le _ (uniqueKeys xs)) (length_uniqueKeys_le xs)

theorem sum_map_filter_ne (x : String) (f : String → Nat) :
    ∀ (L : List String), L.Nodup →
      (L.map f).sum =
        (if x ∈ L then f x else 0) + ((L.filter (fun y => y ≠ x)).map f).sum
  | [], _ => by simp
  | a :: L, hnd => by
    rcases List.nodup_cons.mp hnd with ⟨hal, hndL⟩
    have ih := sum_map_filter_ne x f L hndL
    by_cases hax : a = x
    · subst hax
      have h1 : (a :: L).filter (fun y => y ≠ a) = L.filter (fun y => y ≠ a) := by
        simp [List.filter_cons]
      have h2 : L.filter (fun y => y ≠ a) = L :=
        List.filter_eq_self.mpr
          (fun b hb => decide_eq_true_eq.mpr (fun hba => hal (hba ▸ hb)))
      rw [h1, h2, if_pos (List.mem_cons_self a L)]
      simp
    · have h1 : (a :: L).filter (fun y => y ≠ x) = a :: L.filter (fun y => y ≠ x) := by
        simp [List.filter_cons, hax]
      have h2 : (x ∈ a :: L) ↔ (x ∈ L) := by
        constructor
        · intro h
          rcases List.mem_cons.mp h with h' | h'
          · exact absurd h'.symm hax
          · exact h'
        · exact List.mem_cons_of_mem a
      rw [h1]
      simp only [List.map_cons, List.sum_cons]
      rw [ih]
      by_cases hxL : x ∈ L
      · rw [if_pos hxL, if_pos (h2.mpr hxL)]
        omega
      · rw [if_neg hxL, if_neg (fun h => hxL (h2.mp h))]
        omega

theorem sum_count_uniqueKeys : ∀ (l : List String),
    ((uniqueKeys l).map (fun k => l.count k)).sum = l.length
  | [] => rfl
  | x :: xs => by
    have ih := sum_count_uniqueKeys xs
    have hsplit := sum_map_filter_ne x (fun k => xs.count k) (uniqueKeys xs)
      (nodup_uniqueKeys xs)
    beta_reduce at hsplit
    simp only [uniqueKeys, List.map_cons, List.sum_cons, List.count_cons_self,
      List.length_cons]
    have hcongr :
        ((uniqueKeys xs).filter (fun y => y ≠ x)).map (fun k => (x :: xs).count k) =
        ((uniqueKeys xs).filter (fun y => y ≠ x)).map (fun k => xs.count k) := by
      apply List.map_congr_left
      intro k hk
      rcases List.mem_filter.mp hk with ⟨-, hne⟩
      exact List.count_cons_of_ne (decide_eq_true_eq.mp hne) xs
    rw [hcongr]
    by_cases hx : x ∈ xs
    · rw [if_pos (mem_uniqueKeys.mpr hx)] at hsplit
      omega
    · rw [if_neg (fun h => hx (mem_uniqueKeys.mp h))] at hsplit
      have hc : xs.count x = 0 := List.count_eq_zero.mpr hx
      omega

theorem insertDescBy_perm {α : Type} (key : α → Nat) (p : α) :
    ∀ (l : List α), (insertDescBy key p l).Perm (p :: l)
  | [] => List.Perm.refl _
  | q :: qs => by
    by_cases h : key q ≤ key p
    · simp [insertDescBy, h]
    · simp only [insertDescBy, if_neg h]
      exact ((insertDescBy_perm key p qs).cons q).trans (List.Perm.swap p q qs)

theorem sortDescBy_perm {α : Type} (key : α → Nat) :
    ∀ (l : List α), (sortDescBy key l).Perm l
  | [] => List.Perm.refl _
  | x :: xs =>
    (insertDescBy_perm key x (sortDescBy key xs)).trans ((sortDescBy_perm key xs).cons x)

theorem length_sortDescBy {α : Type} (key : α → Nat) (l : List α) :
    (sortDescBy key l).length = l.length :=
  (sortDescBy_perm key l).length_eq

theorem insertDescBy_sorted {α : Type} (key : α → Nat) (p : α) :
    ∀ {l : List α}, l.Pairwise (fun a b => key b ≤ key a) →
      (insertDescBy key p l).Pairwise (fun a b => key b ≤ key a)
  | [], _ => List.pairwise_singleton _ p
  | q :: qs, hl => by
    rcases List.pairwise_cons.mp hl with ⟨hq, hqs⟩
    by_cases h : key q ≤ key p
    · simp only [insertDescBy, if_pos h]
      refine List.pairwise_cons.mpr ⟨?_, hl⟩
      intro r hr
      rcases List.mem_cons.mp hr with rfl | hr
      · exact h
      · exact Nat.le_trans (hq r hr) h
    · simp only [insertDescBy, if_neg h]
      refine List.pairwise_cons.mpr ⟨?_, insertDescBy_sorted key p hqs⟩
      intro r hr
      rcases List.mem_cons.mp (((insertDescBy_perm key p qs).mem_iff).mp hr) with h' | h'
      · subst h'
        exact Nat.le_of_lt (Nat.lt_of_not_le h)
      · exact hq r h'

theorem sortDescBy_sorted {α : Type} (key : α → Nat) :
    ∀ (l : List α), (sortDescBy key l).Pairwise (fun a b => key b ≤ key a)
  | [] => List.Pairwise.nil
  | x :: xs => insertDescBy_sorted key x (sortDescBy_sorted key xs)

theorem insertDescBy_pairwise_idx {β : Type} (key : β → Nat) (p : Nat × β) :
    ∀ {l : List (Nat × β)}, (∀ q ∈ l, p.1 < q.1) →
      l.Pairwise (fun a b => key a.2 = key b.2 → a.1 < b.1) →
      (insertDescBy (fun q => key q.2) p l).Pairwise
        (fun a b => key a.2 = key b.2 → a.1 < b.1)
  | [], _, _ => List.pairwise_singleton _ p
  | q :: qs, hidx, hl => by
    rcases List.pairwise_cons.mp hl with ⟨hq, hqs⟩
    by_cases h : key q.2 ≤ key p.2
    · simp only [insertDescBy, if_pos h]
      refine List.pairwise_cons.mpr ⟨?_, hl⟩
      intro r hr _
      exact hidx r hr
    · simp only [insertDescBy, if_neg h]
      refine List.pairwise_cons.mpr
        ⟨?_, insertDescBy_pairwise_idx key p (fun r hr => hidx r (List.mem_cons_of_mem q hr)) hqs⟩
      intro r hr
      rcases List.mem_cons.mp
          (((insertDescBy_perm (fun q => key q.2) p qs).mem_iff).mp hr) with h' | h'
      · subst h'
        intro heq
        exact absurd (Nat.le_of_eq heq) h
      · exact hq r h'

theorem sortDescBy_pairwise_idx {β : Type} (key : β → Nat) :
    ∀ {l : List (Nat × β)}, l.Pairwise (fun a b => a.1 < b.1) →
      (sortDescBy (fun q => key q.2) l).Pairwise
        (fun a b => key a.2 = key b.2 → a.1 < b.1)
  | [], _ => List.Pairwise.nil
  | x :: xs, hl => by
    rcases List.pairwise_cons.mp hl with ⟨hx, hxs⟩
    refine insertDescBy_pairwise_idx key x ?_ (sortDescBy_pairwise_idx key hxs)
    intro q hq
    exact hx q (((sortDescBy_perm (fun q => key q.2) xs).mem_iff).mp hq)

theorem pairwise_fst_lt_enumFrom {α : Type} (n : Nat) (l : List α) :
    (l.enumFrom n).Pairwise (fun a b => a.1 < b.1) := by
  have h := List.pairwise_lt_range' n l.length
  rw [← List.enumFrom_map_fst] at h
  exact List.pairwise_map.mp h

theorem valueCounts_perm (l : List String) :
    (valueCounts l).Perm ((uniqueKeys l).map (fun k => (k, l.count k))) :=
  sortDescBy_perm _ _

theorem sum_snd_valueCounts (l : List String) :
    ((valueCounts l).map Prod.snd).sum = l.length := by
  rw [((valueCounts_perm l).map Prod.snd).sum_eq, List.map_map]
  exact sum_count_uniqueKeys l

theorem snd_of_mem_valueCounts {p : String × Nat} {l : List String}
    (hp : p ∈ valueCounts l) : p.2 = l.count p.1 := by
  rcases List.mem_map.mp ((valueCounts_perm l).mem_iff.mp hp) with ⟨k, -, hpk⟩
  rw [← hpk]

theorem sorted_valueCounts (l : List String) :
    (valueCounts l).Pairwise (fun a b => b.2 ≤ a.2) :=
  sortDescBy_sorted _ _

theorem count_map_stage (x : String) (l : List MatchRow) :
    (l.map (fun r => r.stage)).count x = (l.filter (fun r => r.stage = x)).length := by
  unfold List.count
  rw [List.countP_map, ← List.countP_eq_length_filter]
  apply List.countP_congr
  intro r _
  simp [Function.comp]

theorem matchesClean_map_eq_filterMap : ∀ (ms : List MatchRow),
    (matches_clean ms).map total_goals =
      ms.filterMap (fun r =>
        match r.homeGoals, r.awayGoals with
        | some h, some a => some (h + a)
        | _, _ => none)
  | [] => rfl
  | r :: ms => by
    have ih := matchesClean_map_eq_filterMap ms
    unfold matches_clean at ih ⊢
    rcases hh : r.homeGoals with _ | h <;> rcases ha : r.awayGoals with _ | a <;>
      simp [List.filter_cons, List.filterMap_cons, hh, ha, total_goals, ih]

theorem sum_map_add {α : Type} (f g : α → Nat) : ∀ (l : List α),
    (l.map f).sum + (l.map g).sum = (l.map (fun r => f r + g r)).sum
  | [] => rfl
  | x :: xs => by
    have ih := sum_map_add f g xs
    simp only [List.map_cons, List.sum_cons]
    omega

theorem alloc_set_preserves {v w : TableVal} (h : Heap) (i : Nat) (hi : i < h.length) :
    ((h ++ [v]).set h.length w)[i]? = h[i]? := by
  rw [List.getElem?_set_ne ((Nat.ne_of_lt hi).symm)]
  exact List.getElem?_append_left hi

/-! ## Claim theorems -/

/-- C3: if loading any one of the three input files fails, then `load_data`
returns the sentinel `(None, None, None)` for all three tables, and `main`
reports the load error instead of invoking any aggregator, for every
selected page. -/
theorem load_failure_all_none (env : LoadEnv) (page : Page)
    (h : (∃ e, env.worldCupsFile = Except.error e) ∨
         (∃ e, env.matchesFile = Except.error e) ∨
         (∃ e, env.playersFile = Except.error e)) :
    load_data env = (none, none, none) ∧
    main env page =
      Except.error "Failed to load data. Please check if CSV files are present." := by
  rcases env with ⟨wc, msf, pf⟩
  rcases wc with e | wcv <;> rcases msf with e2 | msv <;> rcases pf with e3 | psv <;>
    simp [load_data, main] at h ⊢

/-- C3 witness: a concrete environment whose matches file is missing. -/
theorem load_failure_all_none_witness :
    load_data ⟨Except.ok [], Except.error "file not found", Except.ok []⟩ =
      (none, none, none) ∧
    main ⟨Except.ok [], Except.error "file not found", Except.ok []⟩ Page.overview =
      Except.error "Failed to load data. Please check if CSV files are present." :=
  load_failure_all_none _ _ (Or.inr (Or.inl ⟨"file not found", rfl⟩))

/-- C4: for every Match table, the sum of the two components of
HomeAwayGoalTotals (`home_goals + away_goals`, each summed over rows of
`matches_clean`, i.e. rows with both goal counts present) equals the sum
of TotalGoals over all matches with both goal counts present. -/
theorem homeAway_totals_eq_sum_totalGoals (ms : List MatchRow) :
    home_goals ms + away_goals ms =
      (ms.filterMap (fun r =>
        match r.homeGoals, r.awayGoals with
        | some h, some a => some (h + a)
        | _, _ => none)).sum := by
  rw [← matchesClean_map_eq_filterMap ms]
  exact sum_map_add _ _ _

/-- C5: for every Tournament table in which every row has a non-null
Winner, the values of WinCountsByCountry (`winner_counts`) sum to
TournamentCount: the per-country win counts partition the tournaments. -/
theorem winCounts_sum_eq_tournamentCount (world_cups : List TournamentRow)
    (h : ∀ r ∈ world_cups, r.winner.isSome) :
    ((winner_counts world_cups).map Prod.snd).sum = tournamentCount world_cups := by
  unfold winner_counts tournamentCount
  rw [sum_snd_valueCounts, List.length_filterMap_eq_countP]
  exact List.countP_eq_length.mpr h

/-- C5 witness: a concrete two-tournament table, each with a winner. -/
theorem winCounts_sum_eq_tournamentCount_witness :
    ((winner_counts
        [⟨1930, "Uruguay", some "Uruguay", some "Argentina", 70, 18, 13, "590.549"⟩,
         ⟨1934, "Italy", some "Italy", some "Czechoslovakia", 70, 17, 16, "363.000"⟩]).map
      Prod.snd).sum =
    tournamentCount
      [⟨1930, "Uruguay", some "Uruguay", some "Argentina", 70, 18, 13, "590.549"⟩,
       ⟨1934, "Italy", some "Italy", some "Czechoslovakia", 70, 17, 16, "363.000"⟩] :=
  winCounts_sum_eq_tournamentCount _ (by decide)

/-- C6: attendance normalization (strip the `.` thousands separator, then
read the number) is idempotent: stripping is a no-op on an
already-stripped string, so normalizing an already-normalized value
returns that value unchanged. -/
theorem normalizeAttendance_idempotent :
    (∀ s : String, stripThousands (stripThousands s) = stripThousands s) ∧
    (∀ (s : String) (n : Nat), normalizeAttendance s = some n →
      normalizeAttendance (stripThousands s) = some n) := by
  have hstrip : ∀ s : String, stripThousands (stripThousands s) = stripThousands s := by
    intro s
    unfold stripThousands
    simp
  refine ⟨hstrip, ?_⟩
  intro s n hn
  unfold normalizeAttendance
  rw [hstrip]
  exact hn

/-- C6 witness: normalizing the already-normalized form of a concrete
attendance string gives the same number. -/
theorem normalizeAttendance_idempotent_witness :
    normalizeAttendance (stripThousands "1.045.246") = some 1045246 :=
  normalizeAttendance_idempotent.2 "1.045.246" 1045246 (by rfl)

/-- C8: TotalGoalsHistogramInput is exactly the per-row
`HomeTeamGoals + AwayTeamGoals` over rows where both goal counts are
present (a row with either goal count null is excluded, never defaulted
to zero), and on `[(3, 2), (null, 1)]` the result is `[5]`. -/
theorem totalGoalsHistogram_spec :
    (∀ ms : List MatchRow, totalGoalsHistogramInput ms =
      ms.filterMap (fun r =>
        match r.homeGoals, r.awayGoals with
        | some h, some a => some (h + a)
        | _, _ => none)) ∧
    totalGoalsHistogramInput
      [⟨1930, "Group 1", "A", "B", some 3, some 2⟩,
       ⟨1930, "Group 1", "C", "D", none, some 1⟩] = [5] :=
  ⟨fun ms => matchesClean_map_eq_filterMap ms, by decide⟩

/-- C10: TopCoaches (`coach_counts`) is computed from `players_clean`, so
a PlayerAppearance row with a null PlayerName contributes nothing to any
coach's count, even when its CoachName is present: deleting such a row
anywhere in the table leaves the aggregate unchanged. -/
theorem topCoaches_ignores_null_name_rows (l1 l2 : List PlayerRow) (r : PlayerRow)
    (h : r.playerName = none) :
    coach_counts (l1 ++ r :: l2) = coach_counts (l1 ++ l2) := by
  unfold coach_counts players_clean
  rw [List.filter_append, List.filter_append, List.filter_cons]
  simp [h]

/-- C10 witness: a concrete null-name row with a present coach name is
dropped from the coach counts. -/
theorem topCoaches_ignores_null_name_rows_witness :
    coach_counts
      ([⟨some "P", none, "FRA", some "C"⟩] ++ ⟨none, none, "FRA", some "C"⟩ :: []) =
    coach_counts ([⟨some "P", none, "FRA", some "C"⟩] ++ []) :=
  topCoaches_ignores_null_name_rows _ _ _ rfl

/-- C1 counterexample: the claim says MatchesByStage groups the ENTIRE
Match table, so that a row with a null goal count is still counted toward
its stage's total.  On the one-row table whose only row has stage
`Final` and a null HomeTeamGoals, the code's aggregate (`stage_counts`,
computed from `matches_clean`) is empty — the row is NOT counted — while
the spec-worded whole-table version yields `Final ↦ 1`. -/
theorem matchesByStage_counts_full_table_cex :
    stage_counts [⟨1930, "Final", "A", "B", none, some 1⟩] = [] ∧
    stage_counts_spec [⟨1930, "Final", "A", "B", none, some 1⟩] = [("Final", 1)] ∧
    stage_counts [⟨1930, "Final", "A", "B", none, some 1⟩] ≠
      stage_counts_spec [⟨1930, "Final", "A", "B", none, some 1⟩] := by
  refine ⟨rfl, rfl, ?_⟩
  decide

/-- C1 (amended): MatchesByStage groups only the goal-complete rows of
the Match table (`matches_clean`: both HomeTeamGoals and AwayTeamGoals
present) by Stage, counts occurrences per stage, orders the counts
descending, and truncates to the top 10; a row with a null goal count is
not counted toward its stage's total. -/
theorem matchesByStage_amended (ms : List MatchRow) :
    stage_counts ms = stage_counts_spec (matches_clean ms) ∧
    (stage_counts ms).Pairwise (fun a b => b.2 ≤ a.2) ∧
    (stage_counts ms).length ≤ 10 ∧
    ∀ p ∈ stage_counts ms,
      p.2 = ((matches_clean ms).filter (fun r => r.stage = p.1)).length := by
  refine ⟨rfl, ?_, ?_, ?_⟩
  · exact List.Pairwise.sublist (List.take_sublist _ _) (sorted_valueCounts _)
  · exact List.length_take_le _ _
  · intro p hp
    rw [snd_of_mem_valueCounts (List.take_subset _ _ hp)]
    exact count_map_stage p.1 (matches_clean ms)

/-- C1 witness: on a concrete table with two goal-complete `Final` rows
and one null-goal row, the aggregate reports `Final ↦ 2`. -/
theorem matchesByStage_amended_witness :
    ("Final", 2) ∈ stage_counts
      [⟨1930, "Final", "A", "B", some 1, some 0⟩,
       ⟨1930, "Final", "C", "D", some 2, some 2⟩,
       ⟨1930, "Group 1", "E", "F", none, some 1⟩] ∧
    (("Final", 2) : String × Nat).2 =
      ((matches_clean
        [⟨1930, "Final", "A", "B", some 1, some 0⟩,
         ⟨1930, "Final", "C", "D", some 2, some 2⟩,
         ⟨1930, "Group 1", "E", "F", none, some 1⟩]).filter
        (fun r => r.stage = (("Final", 2) : String × Nat).1)).length :=
  ⟨by decide,
    (matchesByStage_amended
      [⟨1930, "Final", "A", "B", some 1, some 0⟩,
       ⟨1930, "Final", "C", "D", some 2, some 2⟩,
       ⟨1930, "Group 1", "E", "F", none, some 1⟩]).2.2.2 ("Final", 2) (by decide)⟩

/-- C2: HighestScoringMatches restricts to rows with both goal counts
present (`matches_clean`, in its definition), is sorted non-increasing by
TotalGoals, has length `min 10 (number of such rows)`, and breaks ties
between equal TotalGoals values by original row order (the kept row
indices of equal-total rows appear in increasing order). -/
theorem highestScoringMatches_sorted_length_stable (ms : List MatchRow) :
    (highest_scoring ms).Pairwise (fun a b => b.2.totalGoals ≤ a.2.totalGoals) ∧
    (highest_scoring ms).length = min 10 (matches_clean ms).length ∧
    (highest_scoring ms).Pairwise
      (fun a b => a.2.totalGoals = b.2.totalGoals → a.1 < b.1) := by
  unfold highest_scoring
  refine ⟨?_, ?_, ?_⟩
  · rw [List.pairwise_map]
    exact List.Pairwise.sublist (List.take_sublist _ _)
      (sortDescBy_sorted (fun p => total_goals p.2) (matches_clean ms).enum)
  · rw [List.length_map, List.length_take, length_sortDescBy, List.enum_length]
  · rw [List.pairwise_map]
    refine List.Pairwise.sublist (List.take_sublist _ _) ?_
    exact sortDescBy_pairwise_idx total_goals
      (pairwise_fst_lt_enumFrom 0 (matches_clean ms))

/-- C7: PlayersByTeam (`team_players`) excludes null-name rows, counts
distinct player names per team, orders descending and truncates to 20;
each listed team's count is at most the number of PlayerAppearance rows
for that team; and on the three-row scenario
`[(A, FRA), (A, FRA), (null, FRA)]` the aggregate is `FRA ↦ 1`. -/
theorem playersByTeam_spec (players : List PlayerRow) :
    (team_players players).Pairwise (fun a b => b.2 ≤ a.2) ∧
    (team_players players).length ≤ 20 ∧
    (∀ p ∈ team_players players,
      p.2 ≤ (players.filter (fun r => r.teamInitials = p.1)).length) ∧
    team_players
      [⟨some "A", none, "FRA", none⟩, ⟨some "A", none, "FRA", none⟩,
       ⟨none, none, "FRA", none⟩] = [("FRA", 1)] := by
  refine ⟨?_, ?_, ?_, by decide⟩
  · exact List.Pairwise.sublist (List.take_sublist _ _) (sortDescBy_sorted _ _)
  · exact List.length_take_le _ _
  · intro p hp
    have hp3 := (sortDescBy_perm (fun p : String × Nat => p.2) _).mem_iff.mp
      (List.take_subset _ _ hp)
    rcases List.mem_map.mp hp3 with ⟨t, -, hpt⟩
    subst hpt
    calc (uniqueKeys (((players_clean players).filter
            (fun r => r.teamInitials = t)).filterMap (fun r => r.playerName))).length
        ≤ (((players_clean players).filter
            (fun r => r.teamInitials = t)).filterMap (fun r => r.playerName)).length :=
          length_uniqueKeys_le _
      _ ≤ ((players_clean players).filter (fun r => r.teamInitials = t)).length :=
          List.length_filterMap_le _ _
      _ ≤ (players.filter (fun r => r.teamInitials = t)).length :=
          (List.Sublist.filter _ (List.filter_sublist players)).length_le

/-- C7 witness: the scenario table, with the membership hypothesis
discharged on the concrete aggregate. -/
theorem playersByTeam_spec_witness :
    ("FRA", 1) ∈ team_players
      [⟨some "A", none, "FRA", none⟩, ⟨some "A", none, "FRA", none⟩,
       ⟨none, none, "FRA", none⟩] ∧
    (("FRA", 1) : String × Nat).2 ≤
      ([(⟨some "A", none, "FRA", none⟩ : PlayerRow), ⟨some "A", none, "FRA", none⟩,
        ⟨none, none, "FRA", none⟩].filter
        (fun r => r.teamInitials = (("FRA", 1) : String × Nat).1)).length :=
  ⟨by decide,
    (playersByTeam_spec
      [⟨some "A", none, "FRA", none⟩, ⟨some "A", none, "FRA", none⟩,
       ⟨none, none, "FRA", none⟩]).2.2.1 ("FRA", 1) (by decide)⟩

/-- C9: no aggregator mutates its input.  In the heap model, every cell
that exists before a view handler runs holds the same table afterwards:
`show_overview` and `show_goals_attendance` write the normalized
Attendance column only into their freshly allocated copies, and
`show_match_stats` writes the derived Total Goals column only into the
fresh frame returned by `dropna`. -/
theorem aggregators_no_mutation (h : Heap) (i wcRef mRef : Nat) (hi : i < h.length) :
    (show_overview_heap h wcRef)[i]? = h[i]? ∧
    (show_goals_attendance_heap h wcRef)[i]? = h[i]? ∧
    (show_match_stats_heap h mRef)[i]? = h[i]? := by
  refine ⟨?_, ?_, ?_⟩
  · unfold show_overview_heap
    cases hw : h[wcRef]? with
    | none => rfl
    | some v => cases v <;> first | rfl | exact alloc_set_preserves h i hi
  · unfold show_goals_attendance_heap
    cases hw : h[wcRef]? with
    | none => rfl
    | some v => cases v <;> first | rfl | exact alloc_set_preserves h i hi
  · unfold show_match_stats_heap
    cases hw : h[mRef]? with
    | none => rfl
    | some v => cases v <;> first | rfl | exact alloc_set_preserves h i hi

/-- C9 witness: a concrete one-cell heap holding the loaded Match table;
cell 0 is unchanged by all three view handlers. -/
theorem aggregators_no_mutation_witness :
    (show_overview_heap [TableVal.mTable []] 0)[0]? = [TableVal.mTable []][0]? ∧
    (show_goals_attendance_heap [TableVal.mTable []] 0)[0]? = [TableVal.mTable []][0]? ∧
    (show_match_stats_heap [TableVal.mTable []] 0)[0]? = [TableVal.mTable []][0]? :=
  aggregators_no_mutation [TableVal.mTable []] 0 0 0 (by decide)

end Fifa
